import Mathlib

/-!
Shallow embedding of the alert delivery and reminder engine of the
Alerting-Notification-Platform repository, together with proofs about it.

Sources embedded:
- `src/services/AlertStateManager.ts` (state engine: `getState`, per-state
  `canDeliver` / `getNextReminderTime` / `shouldCreateReminder`),
- `src/services/NotificationService.ts` (orchestrator: `deliverToUser`,
  `processReminders`, `processAlertReminders`, `getEligibleUsers`,
  `getUsersNeedingReminders`, `markAlertAsRead`, `snoozeAlert`, and the
  store queries they issue against the SQLite schema in
  `supabase/migrations/20250924111150_mellow_thunder.sql`),
- `src/services/NotificationChannel.ts` (channel registry).

Modelling conventions:
- JavaScript `Date` values are integers (milliseconds since the epoch);
  `Date` comparison is integer comparison.  Each entry point samples
  `new Date()` once; the single evaluation instant is the explicit `now`
  argument (the source calls `new Date()` several times within one pass,
  all within the same instant at the granularity the logic observes).
- The SQLite database is a `Store` record holding the `users`, `alerts`,
  `user_alert_preferences` and `notification_deliveries` tables as lists.
  Row lookups by key (`db.get`) become `List.find?`; the
  `UNIQUE(user_id, alert_id)` constraint on preferences makes `find?`
  faithful to the SQL.  SQL `NULL` is `Option.none`, and `= NULL` is
  false on either side, as in SQL three-valued logic.
- Generated uuid primary keys (`id` columns of preferences and
  deliveries) are never consulted by any query the engine issues
  (preferences are keyed by `(user_id, alert_id)`, deliveries by
  `(alert_id, user_id)`), so the `id` columns are omitted from the rows;
  likewise `updated_at` / `created_at` audit columns, which no modelled
  decision reads.
- `process.env.REMINDER_INTERVAL_MINUTES` (default 120) is the explicit
  `reminderInterval` argument threaded to the functions that read it.
-/

namespace AlertPlatform

/-- Role of a user; the `users.role` column is constrained to these two
values (enum `UserRole` in `src/types`). -/
inductive UserRole where
  | admin
  | user
deriving DecidableEq, Repr, BEq

/-- A row of the `users` table (interface `User`). -/
structure User where
  id : String
  teamId : Option String
  role : UserRole
deriving DecidableEq, Repr

/-- Lifecycle classification of an alert (enum `AlertState`). -/
inductive AlertState where
  | active
  | snoozed
  | expired
deriving DecidableEq, Repr

/-- A row of the `alerts` table (interface `Alert`).  Times are epoch
milliseconds; `visibilityType` is the raw string stored in the
`visibility_type` column, matched by `getEligibleUsers`'s `switch`. -/
structure Alert where
  id : String
  title : String
  message : String
  severity : String
  visibilityType : String
  visibilityTarget : Option String
  startTime : Option Int
  expiryTime : Option Int
  reminderEnabled : Bool
  archivedAt : Option Int
deriving DecidableEq, Repr

/-- A row of the `user_alert_preferences` table (interface
`UserAlertPreference`). -/
structure UserAlertPreference where
  userId : String
  alertId : String
  isRead : Bool
  snoozedUntil : Option Int
deriving DecidableEq, Repr

/-- Delivery outcome recorded in the `status` column. -/
inductive DeliveryStatus where
  | pending
  | delivered
  | failed
deriving DecidableEq, Repr

/-- A row of the `notification_deliveries` table (interface
`NotificationDelivery`). -/
structure NotificationDelivery where
  alertId : String
  userId : String
  channel : String
  deliveredAt : Int
  status : DeliveryStatus
deriving DecidableEq, Repr

/-- The database, as seen through the queries the engine issues. -/
structure Store where
  users : List User
  alerts : List Alert
  preferences : List UserAlertPreference
  deliveries : List NotificationDelivery
deriving DecidableEq, Repr

/-! ### Channel registry (`NotificationChannel.ts`)

Each channel is a name, an enabled flag, and the success value its
`deliver` returns (the MVP channels always report success; the catch
branches are unreachable for them). -/

/-- One notification channel of the factory's static registration table. -/
structure Channel where
  name : String
  enabled : Bool
  success : Bool
deriving DecidableEq, Repr

/-- The `InAppNotificationChannel`: always enabled, delivery succeeds. -/
def inAppChannel : Channel := { name := "in_app", enabled := true, success := true }

/-- The `EmailNotificationChannel`: disabled for the MVP. -/
def emailChannel : Channel := { name := "email", enabled := false, success := true }

/-- The `SMSNotificationChannel`: disabled for the MVP. -/
def smsChannel : Channel := { name := "sms", enabled := false, success := true }

/-- The factory's static registration order: in_app, email, sms. -/
def registeredChannels : List Channel := [inAppChannel, emailChannel, smsChannel]

/-- `NotificationChannelFactory.getEnabledChannels`: the registered
channels filtered to the enabled ones, in registration order. -/
def getEnabledChannels : List Channel := registeredChannels.filter (·.enabled)

/-! ### Alert state engine (`AlertStateManager.ts`) -/

/-- The `alert.startTime && now < alert.startTime` test (false when
`startTime` is unset, as in JS where `undefined` is falsy). -/
def beforeStart (now : Int) (alert : Alert) : Bool :=
  match alert.startTime with
  | some s => decide (now < s)
  | none => false

/-- The `alert.expiryTime && t > alert.expiryTime` test (false when
`expiryTime` is unset). -/
def pastExpiry (t : Int) (alert : Alert) : Bool :=
  match alert.expiryTime with
  | some e => decide (t > e)
  | none => false

/-- The `preference?.snoozedUntil && preference.snoozedUntil > now` test
of `getState` (false when the preference or its snooze is absent). -/
def snoozeActive (now : Int) (preference : Option UserAlertPreference) : Bool :=
  match preference with
  | some p =>
    match p.snoozedUntil with
    | some sn => decide (sn > now)
    | none => false
  | none => false

/-- The `!preference.snoozedUntil || preference.snoozedUntil < now` test
of `shouldCreateReminder` (true when no snooze is set). -/
def snoozeElapsedOrNone (now : Int) (preference : UserAlertPreference) : Bool :=
  match preference.snoozedUntil with
  | none => true
  | some sn => decide (sn < now)

/-- `ActiveAlertState.canDeliver`: false before `startTime` (if set),
false strictly after `expiryTime` (if set), true otherwise. -/
def activeCanDeliver (now : Int) (alert : Alert) : Bool :=
  if beforeStart now alert then false
  else if pastExpiry now alert then false
  else true

/-- `ActiveAlertState.getNextReminderTime`: `none` when reminders are
disabled; otherwise last delivery (or `now`) plus the configured
interval, dropped to `none` when that instant lies strictly past
`expiryTime`. -/
def activeGetNextReminderTime (now reminderInterval : Int) (alert : Alert)
    (lastDelivery : Option Int) : Option Int :=
  if !alert.reminderEnabled then none
  else
    let nextReminder := (lastDelivery.getD now) + reminderInterval * 60 * 1000
    if pastExpiry nextReminder alert then none
    else some nextReminder

/-- `ActiveAlertState.shouldCreateReminder`: reminders enabled, not read,
and any snooze already elapsed. -/
def activeShouldCreateReminder (now : Int) (alert : Alert)
    (preference : UserAlertPreference) : Bool :=
  alert.reminderEnabled && !preference.isRead && snoozeElapsedOrNone now preference

/-- `AlertStateManager.getState`: expired when `now > expiryTime`; else
snoozed when the preference's `snoozedUntil` is still in the future; else
active (the source keeps a redundant pre-`startTime` branch that also
returns active, preserved here). -/
def getState (now : Int) (alert : Alert) (preference : Option UserAlertPreference) :
    AlertState :=
  if pastExpiry now alert then .expired
  else if snoozeActive now preference then .snoozed
  else if beforeStart now alert then .active
  else .active

/-- `AlertStateManager.canDeliver`: dispatch on the computed state; the
snoozed and expired handlers return false. -/
def canDeliver (now : Int) (alert : Alert) (preference : Option UserAlertPreference) :
    Bool :=
  match getState now alert preference with
  | .active => activeCanDeliver now alert
  | .snoozed => false
  | .expired => false

/-- `AlertStateManager.getNextReminderTime`: dispatch on the computed
state; the snoozed and expired handlers return `none`. -/
def getNextReminderTime (now reminderInterval : Int) (alert : Alert)
    (preference : Option UserAlertPreference) (lastDelivery : Option Int) : Option Int :=
  match getState now alert preference with
  | .active => activeGetNextReminderTime now reminderInterval alert lastDelivery
  | .snoozed => none
  | .expired => none

/-- `AlertStateManager.shouldCreateReminder`: dispatch on the computed
state; the snoozed and expired handlers return false. -/
def shouldCreateReminder (now : Int) (alert : Alert)
    (preference : UserAlertPreference) : Bool :=
  match getState now alert (some preference) with
  | .active => activeShouldCreateReminder now alert preference
  | .snoozed => false
  | .expired => false

/-! ### Store queries (`NotificationService.ts`) -/

/-- Row predicate of the preference-by-key queries
(`WHERE user_id = ? AND alert_id = ?`). -/
def prefMatches (userId alertId : String) (p : UserAlertPreference) : Bool :=
  p.userId == userId && p.alertId == alertId

/-- `getUserAlertPreference`: the unique preference row for
`(userId, alertId)`, if any. -/
def getUserAlertPreference (s : Store) (userId alertId : String) :
    Option UserAlertPreference :=
  s.preferences.find? (prefMatches userId alertId)

/-- `ensureUserAlertPreference`: `INSERT OR IGNORE` of an unread,
unsnoozed row — a no-op when the `(userId, alertId)` row already exists. -/
def ensureUserAlertPreference (s : Store) (userId alertId : String) : Store :=
  match getUserAlertPreference s userId alertId with
  | some _ => s
  | none =>
    { s with preferences := s.preferences ++
        [{ userId := userId, alertId := alertId, isRead := false, snoozedUntil := none }] }

/-- Row predicate of the delivery-history queries
(`WHERE alert_id = ? AND user_id = ?`). -/
def deliveryMatches (alertId userId : String) (d : NotificationDelivery) : Bool :=
  d.alertId == alertId && d.userId == userId

/-- The delivery rows recorded for one `(alert, user)` pair. -/
def pairRecords (s : Store) (alertId userId : String) : List NotificationDelivery :=
  s.deliveries.filter (deliveryMatches alertId userId)

/-- How many delivery rows exist for one `(alert, user)` pair. -/
def pairDeliveries (s : Store) (alertId userId : String) : Nat :=
  (pairRecords s alertId userId).length

/-- `getLastDeliveryTime`: the greatest `delivered_at` among the pair's
delivery rows (`ORDER BY delivered_at DESC LIMIT 1`), or `none`. -/
def getLastDeliveryTime (s : Store) (alertId userId : String) : Option Int :=
  (pairRecords s alertId userId).foldl
    (fun acc d => match acc with
      | none => some d.deliveredAt
      | some t => some (max t d.deliveredAt)) none

/-- `getAlert`: the alert row by id, ignoring archived rows
(`WHERE id = ? AND archived_at IS NULL`). -/
def getAlert (s : Store) (alertId : String) : Option Alert :=
  s.alerts.find? (fun a => a.id == alertId && a.archivedAt.isNone)

/-- `getEligibleUsers`: the `switch` on `visibility_type`.  The
organization branch filters `role IN ('admin','user')`; the team branch
compares `team_id = visibility_target` and the user branch
`id = visibility_target` with SQL null semantics (a `NULL` operand makes
the comparison false); any other visibility string returns the empty
list. -/
def getEligibleUsers (s : Store) (alert : Alert) : List User :=
  if alert.visibilityType = "organization" then
    s.users.filter (fun u => u.role == UserRole.admin || u.role == UserRole.user)
  else if alert.visibilityType = "team" then
    s.users.filter (fun u =>
      match u.teamId, alert.visibilityTarget with
      | some x, some y => x == y
      | _, _ => false)
  else if alert.visibilityType = "user" then
    s.users.filter (fun u =>
      match alert.visibilityTarget with
      | some y => u.id == y
      | none => false)
  else []

/-- `getActiveAlertsWithReminders`: reminder-enabled, unarchived alerts
whose `[start_time, expiry_time)` window contains `now`
(`start_time IS NULL OR start_time <= now`,
`expiry_time IS NULL OR expiry_time > now`). -/
def getActiveAlertsWithReminders (now : Int) (s : Store) : List Alert :=
  s.alerts.filter (fun a =>
    a.reminderEnabled && a.archivedAt.isNone
    && (match a.startTime with | none => true | some st => decide (st ≤ now))
    && (match a.expiryTime with | none => true | some e => decide (e > now)))

/-- The visibility disjunction of the `getUsersNeedingReminders` SQL:
organization-wide, or team match, or user match, with SQL null
semantics on the `=` comparisons. -/
def sqlVisibilityMatch (a : Alert) (u : User) : Bool :=
  a.visibilityType == "organization"
  || (a.visibilityType == "team" &&
      (match u.teamId, a.visibilityTarget with
       | some x, some y => x == y
       | _, _ => false))
  || (a.visibilityType == "user" &&
      (match a.visibilityTarget with
       | some y => u.id == y
       | none => false))

/-- `getUsersNeedingReminders`: users joined against the alert row with
the given id (empty when no such alert), filtered to those whose
left-joined preference is absent or unread
(`p.is_read IS NULL OR p.is_read = 0`) and absent or not currently
snoozed (`p.snoozed_until IS NULL OR p.snoozed_until < now`). -/
def getUsersNeedingReminders (now : Int) (s : Store) (alertId : String) : List User :=
  s.users.filter (fun u =>
    match s.alerts.find? (fun al => al.id == alertId) with
    | none => false
    | some al =>
      sqlVisibilityMatch al u
      && (match getUserAlertPreference s u.id alertId with
          | none => true
          | some p => !p.isRead)
      && (match getUserAlertPreference s u.id alertId with
          | none => true
          | some p =>
            match p.snoozedUntil with
            | none => true
            | some sn => decide (sn < now)))

/-! ### Orchestrator operations (`NotificationService.ts`) -/

/-- The batch of delivery rows `deliverToUser` records: one per enabled
channel, in registry order, with status from the channel's outcome. -/
def deliveryRecords (now : Int) (alert : Alert) (user : User) :
    List NotificationDelivery :=
  getEnabledChannels.map (fun c =>
    { alertId := alert.id, userId := user.id, channel := c.name, deliveredAt := now,
      status := if c.success then DeliveryStatus.delivered else DeliveryStatus.failed })

/-- `deliverToUser`: load the preference, bail out when the state engine
says the alert is not deliverable; otherwise record one delivery row per
enabled channel and ensure a preference row exists. -/
def deliverToUser (now : Int) (s : Store) (alert : Alert) (user : User) : Store :=
  let preference := getUserAlertPreference s user.id alert.id
  if !canDeliver now alert preference then s
  else
    let s1 := { s with deliveries := s.deliveries ++ deliveryRecords now alert user }
    ensureUserAlertPreference s1 user.id alert.id

/-- The per-candidate body of `processAlertReminders`'s loop: with a
loaded preference passing `shouldCreateReminder`, re-deliver when the
computed next-reminder instant exists and has elapsed. -/
def reminderStep (now reminderInterval : Int) (alert : Alert) (st : Store) (w : User) :
    Store :=
  match getUserAlertPreference st w.id alert.id with
  | none => st
  | some p =>
    if shouldCreateReminder now alert p then
      match getNextReminderTime now reminderInterval alert (some p)
          (getLastDeliveryTime st alert.id w.id) with
      | some t => if t ≤ now then deliverToUser now st alert w else st
      | none => st
    else st

/-- `processAlertReminders`: fold `reminderStep` over the candidate list
computed once up front. -/
def processAlertReminders (now reminderInterval : Int) (s : Store) (alert : Alert) :
    Store :=
  (getUsersNeedingReminders now s alert.id).foldl (reminderStep now reminderInterval alert) s

/-- `processReminders`: one scheduler pass over every active
reminder-enabled alert, the alert list computed once up front. -/
def processReminders (now reminderInterval : Int) (s : Store) : Store :=
  (getActiveAlertsWithReminders now s).foldl
    (fun st a => processAlertReminders now reminderInterval st a) s

/-- `deliverAlert`: fail when the alert is absent or archived, else fan
out `deliverToUser` over the eligible recipients. -/
def deliverAlert (now : Int) (s : Store) (alertId : String) : Except String Store :=
  match getAlert s alertId with
  | none => .error ("Alert " ++ alertId ++ " not found")
  | some alert =>
    .ok ((getEligibleUsers s alert).foldl (fun st u => deliverToUser now st alert u) s)

/-- Rows of the preference table other than the `(userId, alertId)` row —
what survives an `INSERT OR REPLACE` keyed on that unique pair. -/
def removePref (l : List UserAlertPreference) (userId alertId : String) :
    List UserAlertPreference :=
  l.filter (fun p => !prefMatches userId alertId p)

/-- `markAlertAsRead`: `INSERT OR REPLACE` of the `(userId, alertId)` row
with `is_read = 1`; `snoozed_until` is not in the insert's column list,
so the replacement row takes the column's `NULL` default. -/
def markAlertAsRead (s : Store) (userId alertId : String) : Store :=
  { s with preferences := removePref s.preferences userId alertId ++
      [{ userId := userId, alertId := alertId, isRead := true, snoozedUntil := none }] }

/-- `snoozeAlert`: `INSERT OR REPLACE` of the `(userId, alertId)` row,
carrying the previous `is_read` through a `COALESCE` subselect (0 when no
row existed) and setting `snoozed_until` to `now` plus the requested
hours. -/
def snoozeAlert (now : Int) (s : Store) (userId alertId : String)
    (hoursToSnooze : Int) : Store :=
  let snoozedUntil := now + hoursToSnooze * 60 * 60 * 1000
  let prevRead := match getUserAlertPreference s userId alertId with
    | some p => p.isRead
    | none => false
  { s with preferences := removePref s.preferences userId alertId ++
      [{ userId := userId, alertId := alertId, isRead := prevRead,
         snoozedUntil := some snoozedUntil }] }

/-! ### Concrete fixtures used by counterexamples and witnesses -/

/-- A recipient on team t1. -/
def cxUser : User := { id := "u1", teamId := some "t1", role := UserRole.user }

/-- An organization-wide, reminder-enabled alert with no time bounds. -/
def cxAlert : Alert :=
  { id := "a1", title := "t", message := "m", severity := "info",
    visibilityType := "organization", visibilityTarget := none,
    startTime := none, expiryTime := none, reminderEnabled := true, archivedAt := none }

/-- A preference that has already been read and is not snoozed. -/
def cxReadPref : UserAlertPreference :=
  { userId := "u1", alertId := "a1", isRead := true, snoozedUntil := none }

/-- A store in which cxUser has already read cxAlert. -/
def cxStore : Store :=
  { users := [cxUser], alerts := [cxAlert], preferences := [cxReadPref], deliveries := [] }

/-- An alert expiring at instant 100. -/
def cxExpiryAlert : Alert := { cxAlert with id := "a2", expiryTime := some 100 }

/-- An alert expiring exactly when a reminder scheduled from a delivery at
instant 0 with a 120-minute interval would fire. -/
def cxBoundaryAlert : Alert := { cxAlert with id := "a3", expiryTime := some 7200000 }

/-- A preference snoozed until instant 80. -/
def cxSnoozedPref : UserAlertPreference :=
  { userId := "u1", alertId := "a2", isRead := false, snoozedUntil := some 80 }

/-- A team-scoped alert targeting team t1. -/
def cxTeamAlert : Alert :=
  { cxAlert with id := "a4", visibilityType := "team", visibilityTarget := some "t1" }

/-- A user-scoped alert targeting user u1. -/
def cxUserAlert : Alert :=
  { cxAlert with id := "a5", visibilityType := "user", visibilityTarget := some "u1" }

/-- An alert with an unrecognized visibility value. -/
def cxBogusAlert : Alert := { cxAlert with id := "a6", visibilityType := "everyone" }

/-- An unread, unsnoozed preference for cxAlert. -/
def cxUnreadPref : UserAlertPreference :=
  { userId := "u1", alertId := "a1", isRead := false, snoozedUntil := none }

/-- A delivery of cxAlert to cxUser at instant 0. -/
def cxDelivery : NotificationDelivery :=
  { alertId := "a1", userId := "u1", channel := "in_app", deliveredAt := 0,
    status := DeliveryStatus.delivered }

/-- A store where cxUser received cxAlert at instant 0 and has not read it. -/
def cxReminderStore : Store :=
  { users := [cxUser], alerts := [cxAlert], preferences := [cxUnreadPref],
    deliveries := [cxDelivery] }

/-- A store in which cxUser has no preference row at all for cxAlert. -/
def cxNoPrefStore : Store :=
  { users := [cxUser], alerts := [cxAlert], preferences := [], deliveries := [] }

/-- A preference-lookup result that can never trigger a reminder
delivery for its own pair: absent, or already read. -/
def reminderInert : Option UserAlertPreference → Prop
  | none => True
  | some q => q.isRead = true

/-! ### General list helpers -/

theorem find?_append_not {α : Type} (p : α → Bool) (l : List α) (r : α)
    (hr : p r = false) : (l ++ [r]).find? p = l.find? p := by
  induction l with
  | nil => simp [List.find?, hr]
  | cons a t ih =>
    by_cases h : p a
    · simp [List.find?_cons, h]
    · simp only [List.cons_append, List.find?_cons, Bool.not_eq_true] at *
      simp [h, ih]

theorem find?_filter_not_append {α : Type} (p : α → Bool) (l : List α) (r : α)
    (hr : p r = true) : ((l.filter fun x => !p x) ++ [r]).find? p = some r := by
  induction l with
  | nil => simp [List.find?, hr]
  | cons a t ih =>
    by_cases h : p a
    · simp [List.filter_cons, h, ih]
    · simp only [Bool.not_eq_true] at h
      simp [List.filter_cons, h, List.find?_cons, ih]

theorem find?_filter_of_find? {α : Type} (p q : α → Bool) (l : List α) (x : α)
    (h : l.find? p = some x) (hq : q x = true) : (l.filter q).find? p = some x := by
  induction l with
  | nil => simp [List.find?] at h
  | cons a t ih =>
    by_cases hpa : p a
    · rw [List.find?_cons_of_pos _ hpa] at h
      injection h with h
      subst h
      rw [List.filter_cons, if_pos hq, List.find?_cons_of_pos _ hpa]
    · rw [List.find?_cons_of_neg _ hpa] at h
      rw [List.filter_cons]
      by_cases hqa : q a
      · rw [if_pos hqa, List.find?_cons_of_neg _ hpa]
        exact ih h
      · rw [if_neg hqa]
        exact ih h

theorem foldl_preserve {α β : Type} {P : β → Prop} (f : β → α → β) (l : List α)
    (h : ∀ st x, x ∈ l → P st → P (f st x)) (st : β) (hst : P st) :
    P (l.foldl f st) := by
  induction l generalizing st with
  | nil => simpa using hst
  | cons a t ih =>
    simp only [List.foldl_cons]
    exact ih (fun st2 x hx => h st2 x (List.mem_cons_of_mem _ hx)) _
      (h st a (List.mem_cons_self _ _) hst)

theorem find?_append_of_some {α : Type} (p : α → Bool) (l l2 : List α) (x : α)
    (h : l.find? p = some x) : (l ++ l2).find? p = some x := by
  induction l with
  | nil => simp [List.find?] at h
  | cons a t ih =>
    by_cases hpa : p a
    · rw [List.find?_cons_of_pos _ hpa] at h
      rw [List.cons_append, List.find?_cons_of_pos _ hpa]
      exact h
    · rw [List.find?_cons_of_neg _ hpa] at h
      rw [List.cons_append, List.find?_cons_of_neg _ hpa]
      exact ih h

/-! ### Preference-row lookup lemmas -/

theorem prefMatches_iff (U A : String) (p : UserAlertPreference) :
    prefMatches U A p = true ↔ (p.userId = U ∧ p.alertId = A) := by
  unfold prefMatches
  simp [Bool.and_eq_true, beq_iff_eq]

theorem replaceRow_lookup_self (l : List UserAlertPreference) (U A : String)
    (row : UserAlertPreference) (hrow : row.userId = U ∧ row.alertId = A) :
    ((l.filter fun x => !prefMatches U A x) ++ [row]).find? (prefMatches U A)
      = some row :=
  find?_filter_not_append _ l row ((prefMatches_iff U A row).mpr hrow)

theorem replaceRow_lookup_other (l : List UserAlertPreference) (V B U A : String)
    (row : UserAlertPreference) (p : UserAlertPreference)
    (hne : ¬(V = U ∧ B = A)) (hrow : row.userId = V ∧ row.alertId = B)
    (h : l.find? (prefMatches U A) = some p) :
    ((l.filter fun x => !prefMatches V B x) ++ [row]).find? (prefMatches U A)
      = some p := by
  have hpu : p.userId = U ∧ p.alertId = A := (prefMatches_iff U A p).mp (List.find?_some h)
  have hq : (!prefMatches V B p) = true := by
    rw [Bool.not_eq_true']
    rw [← Bool.not_eq_true]
    intro hc
    rcases (prefMatches_iff V B p).mp hc with ⟨h1, h2⟩
    exact hne ⟨h1.symm.trans hpu.1, h2.symm.trans hpu.2⟩
  rw [find?_append_not]
  · exact find?_filter_of_find? _ _ l p h hq
  · rw [← Bool.not_eq_true]
    intro hc
    rcases (prefMatches_iff U A row).mp hc with ⟨h1, h2⟩
    exact hne ⟨hrow.1.symm.trans h1, hrow.2.symm.trans h2⟩

theorem ensure_pref_lookup_some (s : Store) (V B U A : String)
    (p : UserAlertPreference) (h : getUserAlertPreference s U A = some p) :
    getUserAlertPreference (ensureUserAlertPreference s V B) U A = some p := by
  unfold ensureUserAlertPreference
  cases hvb : getUserAlertPreference s V B with
  | none =>
    unfold getUserAlertPreference at h ⊢
    exact find?_append_of_some _ _ _ _ h
  | some q => exact h

theorem ensure_deliveries (s : Store) (U A : String) :
    (ensureUserAlertPreference s U A).deliveries = s.deliveries := by
  unfold ensureUserAlertPreference
  cases getUserAlertPreference s U A <;> rfl

/-! ### State-engine characterization lemmas -/

theorem pastExpiry_false (now : Int) (a : Alert)
    (h : ∀ e, a.expiryTime = some e → now ≤ e) : pastExpiry now a = false := by
  unfold pastExpiry
  rcases he : a.expiryTime with _ | e
  · rfl
  · have := h e he
    simp
    omega

theorem pastExpiry_true (now : Int) (a : Alert) (e : Int)
    (he : a.expiryTime = some e) (hlt : e < now) : pastExpiry now a = true := by
  unfold pastExpiry
  rw [he]
  simp
  omega

theorem beforeStart_false (now : Int) (a : Alert)
    (h : ∀ s, a.startTime = some s → s ≤ now) : beforeStart now a = false := by
  unfold beforeStart
  rcases hs : a.startTime with _ | s
  · rfl
  · have := h s hs
    simp
    omega

theorem snoozeActive_false (now : Int) (p : Option UserAlertPreference)
    (h : ∀ pr, p = some pr → ∀ sn, pr.snoozedUntil = some sn → sn ≤ now) :
    snoozeActive now p = false := by
  unfold snoozeActive
  rcases p with _ | pr
  · rfl
  · show (match pr.snoozedUntil with
      | some sn => decide (sn > now)
      | none => false) = false
    rcases hsn : pr.snoozedUntil with _ | sn
    · rfl
    · have := h pr rfl sn hsn
      simp
      omega

theorem snoozeActive_true (now : Int) (pr : UserAlertPreference) (sn : Int)
    (hsn : pr.snoozedUntil = some sn) (h : now < sn) :
    snoozeActive now (some pr) = true := by
  unfold snoozeActive
  show (match pr.snoozedUntil with
    | some sn => decide (sn > now)
    | none => false) = true
  rw [hsn]
  simp
  omega

theorem getState_expired (now : Int) (a : Alert) (p : Option UserAlertPreference)
    (e : Int) (he : a.expiryTime = some e) (hlt : e < now) :
    getState now a p = AlertState.expired := by
  unfold getState
  rw [pastExpiry_true now a e he hlt]
  rfl

theorem getState_snoozed (now : Int) (a : Alert) (pr : UserAlertPreference) (sn : Int)
    (hsn : pr.snoozedUntil = some sn) (hlt : now < sn)
    (hexp : ∀ e, a.expiryTime = some e → now ≤ e) :
    getState now a (some pr) = AlertState.snoozed := by
  unfold getState
  rw [pastExpiry_false now a hexp, snoozeActive_true now pr sn hsn hlt]
  rfl

theorem getState_active (now : Int) (a : Alert) (p : Option UserAlertPreference)
    (h1 : pastExpiry now a = false) (h2 : snoozeActive now p = false) :
    getState now a p = AlertState.active := by
  unfold getState
  rw [h1, h2]
  simp only [Bool.false_eq_true, if_false]
  split <;> rfl

theorem canDeliver_active_true (now : Int) (a : Alert) (p : Option UserAlertPreference)
    (h1 : pastExpiry now a = false) (h2 : snoozeActive now p = false)
    (h3 : beforeStart now a = false) :
    canDeliver now a p = true := by
  unfold canDeliver
  rw [getState_active now a p h1 h2]
  unfold activeCanDeliver
  rw [h3, h1]
  rfl

theorem shouldCreateReminder_true (now : Int) (a : Alert) (p : UserAlertPreference)
    (h1 : pastExpiry now a = false) (h2 : snoozeActive now (some p) = false)
    (hre : a.reminderEnabled = true) (hrd : p.isRead = false)
    (hsz : snoozeElapsedOrNone now p = true) :
    shouldCreateReminder now a p = true := by
  unfold shouldCreateReminder
  rw [getState_active now a (some p) h1 h2]
  unfold activeShouldCreateReminder
  rw [hre, hrd, hsz]
  rfl

theorem shouldCreateReminder_isRead (now : Int) (a : Alert) (p : UserAlertPreference)
    (h : shouldCreateReminder now a p = true) : p.isRead = false := by
  unfold shouldCreateReminder at h
  cases hst : getState now a (some p) <;> simp only [hst] at h
  · unfold activeShouldCreateReminder at h
    simp only [Bool.and_eq_true, Bool.not_eq_true'] at h
    exact h.1.2
  · exact absurd h (by simp)
  · exact absurd h (by simp)

theorem getNextReminderTime_some_eq (now i : Int) (a : Alert)
    (po : Option UserAlertPreference) (ld : Option Int) (t : Int)
    (h : getNextReminderTime now i a po ld = some t) :
    t = ld.getD now + i * 60 * 1000 := by
  unfold getNextReminderTime at h
  cases hst : getState now a po <;> simp only [hst] at h
  · unfold activeGetNextReminderTime at h
    rcases hre : a.reminderEnabled
    · simp [hre] at h
    · simp only [hre, Bool.not_true, Bool.false_eq_true, if_false] at h
      split at h
      · exact absurd h (by simp)
      · injection h with h
        omega
  · exact absurd h (by simp)
  · exact absurd h (by simp)

theorem getNextReminderTime_eq (now i : Int) (a : Alert)
    (po : Option UserAlertPreference) (ld : Option Int)
    (h1 : pastExpiry now a = false) (h2 : snoozeActive now po = false)
    (hre : a.reminderEnabled = true)
    (hexp : pastExpiry (ld.getD now + i * 60 * 1000) a = false) :
    getNextReminderTime now i a po ld = some (ld.getD now + i * 60 * 1000) := by
  unfold getNextReminderTime
  rw [getState_active now a po h1 h2]
  unfold activeGetNextReminderTime
  rw [hre]
  simp [hexp]

/-! ### Claims about the state engine -/

/-- Claim C2, counterexample: `cxExpiryAlert` expires at instant 100, is
in effective state Active at `now = 100`, yet `canDeliver` still returns
true at that exact instant — contradicting the claim that the alert is
not deliverable when `now = expiryTime`. -/
theorem c2_counterexample :
    cxExpiryAlert.expiryTime = some 100 ∧
    getState 100 cxExpiryAlert none = AlertState.active ∧
    canDeliver 100 cxExpiryAlert none = true :=
  ⟨rfl, by decide, by decide⟩

/-- Claim C2 as amended: for an alert in effective state Active,
`canDeliver` is true iff (startTime absent or `now ≥ startTime`) and
(expiryTime absent or `now ≤ expiryTime`); the exclusion bound is
`now > expiryTime`, so the validity window is closed at expiry and the
alert is still deliverable at the exact instant `now = expiryTime`. -/
theorem c2_theorem (now : Int) (a : Alert) (p : Option UserAlertPreference)
    (h : getState now a p = AlertState.active) :
    canDeliver now a p = true ↔
      ((∀ s, a.startTime = some s → s ≤ now) ∧
       (∀ e, a.expiryTime = some e → now ≤ e)) := by
  unfold canDeliver
  rw [h]
  unfold activeCanDeliver beforeStart pastExpiry
  rcases a.startTime with _ | s <;> rcases a.expiryTime with _ | e <;>
    simp <;> omega

/-- Witness for c2_theorem at the expiry boundary of `cxExpiryAlert`. -/
theorem c2_theorem_witness :
    getState 100 cxExpiryAlert none = AlertState.active ∧
    (canDeliver 100 cxExpiryAlert none = true ↔
      ((∀ s, cxExpiryAlert.startTime = some s → s ≤ 100) ∧
       (∀ e, cxExpiryAlert.expiryTime = some e → 100 ≤ e))) :=
  ⟨by decide, c2_theorem 100 cxExpiryAlert none (by decide)⟩

/-- Claim C3, counterexample: `cxBoundaryAlert` expires at 7200000, and
the reminder computed from a last delivery at 0 with a 120-minute
interval falls exactly at 7200000 — at, not after, the expiry.  The
claim says the result must be null there, but `getNextReminderTime`
returns the instant. -/
theorem c3_counterexample :
    cxBoundaryAlert.reminderEnabled = true ∧
    cxBoundaryAlert.expiryTime = some 7200000 ∧
    getNextReminderTime 0 120 cxBoundaryAlert none (some 0) = some 7200000 :=
  ⟨rfl, rfl, by decide⟩

/-- Claim C3 as amended: for an alert in effective state Active,
`getNextReminderTime` returns none when reminders are disabled, and
otherwise returns (lastDelivery, or now if absent) + reminderInterval,
forced to none only when that instant falls strictly after `expiryTime`;
an instant falling exactly at `expiryTime` is still returned. -/
theorem c3_theorem (now interval : Int) (a : Alert) (p : Option UserAlertPreference)
    (last : Option Int) (h : getState now a p = AlertState.active) :
    (a.reminderEnabled = false → getNextReminderTime now interval a p last = none)
    ∧ (a.reminderEnabled = true → a.expiryTime = none →
        getNextReminderTime now interval a p last
          = some (last.getD now + interval * 60 * 1000))
    ∧ (∀ e, a.reminderEnabled = true → a.expiryTime = some e →
        last.getD now + interval * 60 * 1000 ≤ e →
        getNextReminderTime now interval a p last
          = some (last.getD now + interval * 60 * 1000))
    ∧ (∀ e, a.expiryTime = some e → e < last.getD now + interval * 60 * 1000 →
        getNextReminderTime now interval a p last = none) := by
  unfold getNextReminderTime
  rw [h]
  unfold activeGetNextReminderTime pastExpiry
  refine ⟨?_, ?_, ?_, ?_⟩
  · intro hre
    simp [hre]
  · intro hre hee
    simp [hre, hee]
  · intro e hre hee hle
    have hgt : ¬ (last.getD now + interval * 60 * 1000 > e) := by omega
    simp [hre, hee, hgt]
  · intro e hee hlt
    rcases hre : a.reminderEnabled
    · simp [hre]
    · have hgt : last.getD now + interval * 60 * 1000 > e := by omega
      simp [hre, hee, hgt]

/-- Witness for c3_theorem on `cxBoundaryAlert` with a last delivery at 0
and the reminder landing exactly at the expiry instant. -/
theorem c3_theorem_witness :
    getState 0 cxBoundaryAlert none = AlertState.active ∧
    getNextReminderTime 0 120 cxBoundaryAlert none (some 0)
      = some ((some (0 : Int)).getD 0 + 120 * 60 * 1000) :=
  ⟨by decide,
   (c3_theorem 0 120 cxBoundaryAlert none (some 0) (by decide)).2.2.1
     7200000 rfl rfl (by decide)⟩

/-- Claim C4 (confirmed): the effective state is Expired whenever
`expiryTime` is set and `now > expiryTime`, regardless of the
preference; otherwise Snoozed whenever `snoozedUntil` is set and
`now < snoozedUntil`; otherwise Active — also when `now` is before
`startTime`, since no condition on `startTime` appears. -/
theorem c4_theorem (now : Int) (a : Alert) (p : Option UserAlertPreference) :
    (∀ e, a.expiryTime = some e → e < now → getState now a p = AlertState.expired)
    ∧ (∀ pr sn, p = some pr → pr.snoozedUntil = some sn → now < sn →
        (∀ e, a.expiryTime = some e → now ≤ e) →
        getState now a p = AlertState.snoozed)
    ∧ ((∀ e, a.expiryTime = some e → now ≤ e) →
       (∀ pr, p = some pr → ∀ sn, pr.snoozedUntil = some sn → sn ≤ now) →
       getState now a p = AlertState.active) := by
  refine ⟨?_, ?_, ?_⟩
  · intro e he hlt
    exact getState_expired now a p e he hlt
  · intro pr sn hp hsn hlt hexp
    subst hp
    exact getState_snoozed now a pr sn hsn hlt hexp
  · intro hexp hsz
    exact getState_active now a p (pastExpiry_false now a hexp) (snoozeActive_false now p hsz)

/-- Witness for c4_theorem: the three states at concrete instants around
`cxExpiryAlert` (expiry 100) and `cxSnoozedPref` (snoozed until 80). -/
theorem c4_theorem_witness :
    getState 200 cxExpiryAlert none = AlertState.expired
    ∧ getState 50 cxExpiryAlert (some cxSnoozedPref) = AlertState.snoozed
    ∧ getState 50 cxExpiryAlert none = AlertState.active :=
  ⟨(c4_theorem 200 cxExpiryAlert none).1 100 rfl (by decide),
   (c4_theorem 50 cxExpiryAlert (some cxSnoozedPref)).2.1 cxSnoozedPref 80 rfl rfl
     (by decide) (by intro e he; injection he with he; omega),
   (c4_theorem 50 cxExpiryAlert none).2.2
     (by intro e he; injection he with he; omega)
     (by intro pr hpr; exact absurd hpr (by simp))⟩

/-- Claim C10 (confirmed): after `markAlertAsRead`, the `(user, alert)`
preference row has `isRead = true` and `snoozedUntil = none` — the
replacement row omits `snoozed_until` from its column list, so any
active snooze is cleared as a side effect of marking the alert read. -/
theorem c10_theorem (s : Store) (U A : String) :
    getUserAlertPreference (markAlertAsRead s U A) U A =
      some { userId := U, alertId := A, isRead := true, snoozedUntil := none } := by
  unfold getUserAlertPreference markAlertAsRead removePref
  exact find?_filter_not_append (prefMatches U A) s.preferences _ (by simp [prefMatches])

/-- Claim C5 (confirmed): the eligible-recipient set is all recipients
for organization visibility (the role filter `role IN ('admin','user')`
passes every user, the role enum having exactly those two values);
exactly the recipients whose team equals the target for team visibility;
exactly those whose id equals the target for user visibility; and the
empty set, without an error, for any other visibility value. -/
theorem c5_theorem (s : Store) (a : Alert) :
    (a.visibilityType = "organization" → getEligibleUsers s a = s.users)
    ∧ (∀ t, a.visibilityType = "team" → a.visibilityTarget = some t →
        getEligibleUsers s a = s.users.filter (fun u =>
          match u.teamId with
          | some x => x == t
          | none => false))
    ∧ (∀ t, a.visibilityType = "user" → a.visibilityTarget = some t →
        getEligibleUsers s a = s.users.filter (fun u => u.id == t))
    ∧ (a.visibilityType ≠ "organization" → a.visibilityType ≠ "team" →
       a.visibilityType ≠ "user" → getEligibleUsers s a = []) := by
  unfold getEligibleUsers
  refine ⟨?_, ?_, ?_, ?_⟩
  · intro h
    rw [if_pos h]
    apply List.filter_eq_self.mpr
    intro u _
    cases hu : u.role <;> decide
  · intro t h ht
    have h1 : a.visibilityType ≠ "organization" := by
      rw [h]
      decide
    rw [if_neg h1, if_pos h]
    apply List.filter_congr
    intro u _
    rw [ht]
    rcases u.teamId with _ | x <;> rfl
  · intro t h ht
    have h1 : a.visibilityType ≠ "organization" := by
      rw [h]
      decide
    have h2 : a.visibilityType ≠ "team" := by
      rw [h]
      decide
    rw [if_neg h1, if_neg h2, if_pos h]
    apply List.filter_congr
    intro u _
    rw [ht]
  · intro h1 h2 h3
    rw [if_neg h1, if_neg h2, if_neg h3]

/-- Witness for c5_theorem: the four visibility branches over the
one-user store, with the organization, team-t1, user-u1 and bogus
alerts. -/
theorem c5_theorem_witness :
    getEligibleUsers cxStore cxAlert = cxStore.users
    ∧ getEligibleUsers cxStore cxTeamAlert = cxStore.users.filter (fun u =>
        match u.teamId with
        | some x => x == "t1"
        | none => false)
    ∧ getEligibleUsers cxStore cxUserAlert = cxStore.users.filter (fun u => u.id == "u1")
    ∧ getEligibleUsers cxStore cxBogusAlert = [] :=
  ⟨(c5_theorem cxStore cxAlert).1 rfl,
   (c5_theorem cxStore cxTeamAlert).2.1 "t1" rfl rfl,
   (c5_theorem cxStore cxUserAlert).2.2.1 "u1" rfl rfl,
   (c5_theorem cxStore cxBogusAlert).2.2.2 (by decide) (by decide) (by decide)⟩

/-- Claim C8 (confirmed): once a preference has `isRead = true`, each of
the three preference-mutating operations leaves an `isRead = true` row in
place for that pair — `ensureUserAlertPreference` is insert-or-ignore,
`markAlertAsRead` rewrites the row with `isRead = true`, and
`snoozeAlert` carries the previous `isRead` through its COALESCE;
moreover `snoozeAlert` on the pair itself replaces `snoozedUntil` while
preserving the stored `isRead` value. -/
theorem c8_theorem (s : Store) (U A V B : String) (now hrs : Int)
    (p : UserAlertPreference) (h : getUserAlertPreference s U A = some p)
    (hr : p.isRead = true) :
    (∃ q, getUserAlertPreference (ensureUserAlertPreference s V B) U A = some q ∧
          q.isRead = true)
    ∧ (∃ q, getUserAlertPreference (markAlertAsRead s V B) U A = some q ∧
          q.isRead = true)
    ∧ (∃ q, getUserAlertPreference (snoozeAlert now s V B hrs) U A = some q ∧
          q.isRead = true)
    ∧ getUserAlertPreference (snoozeAlert now s U A hrs) U A =
        some { userId := U, alertId := A, isRead := p.isRead,
               snoozedUntil := some (now + hrs * 60 * 60 * 1000) } := by
  have hsnSelf : getUserAlertPreference (snoozeAlert now s U A hrs) U A =
      some { userId := U, alertId := A, isRead := p.isRead,
             snoozedUntil := some (now + hrs * 60 * 60 * 1000) } := by
    unfold snoozeAlert
    simp only [h]
    unfold getUserAlertPreference removePref
    exact replaceRow_lookup_self s.preferences U A _ ⟨rfl, rfl⟩
  refine ⟨⟨p, ensure_pref_lookup_some s V B U A p h, hr⟩, ?_, ?_, hsnSelf⟩
  · by_cases hvb : V = U ∧ B = A
    · rcases hvb with ⟨rfl, rfl⟩
      refine ⟨{ userId := V, alertId := B, isRead := true, snoozedUntil := none }, ?_, rfl⟩
      unfold getUserAlertPreference markAlertAsRead removePref
      exact replaceRow_lookup_self s.preferences V B _ ⟨rfl, rfl⟩
    · refine ⟨p, ?_, hr⟩
      unfold getUserAlertPreference markAlertAsRead removePref
      unfold getUserAlertPreference at h
      exact replaceRow_lookup_other s.preferences V B U A _ p hvb ⟨rfl, rfl⟩ h
  · by_cases hvb : V = U ∧ B = A
    · rcases hvb with ⟨rfl, rfl⟩
      exact ⟨_, hsnSelf, hr⟩
    · refine ⟨p, ?_, hr⟩
      unfold getUserAlertPreference snoozeAlert removePref
      unfold getUserAlertPreference at h
      exact replaceRow_lookup_other s.preferences V B U A _ p hvb ⟨rfl, rfl⟩ h

/-- Witness for c8_theorem: cxStore holds the already-read cxReadPref for
(u1, a1); mutations on the unrelated pair (u2, a9) and a snooze of
(u1, a1) itself all leave `isRead = true`. -/
theorem c8_theorem_witness :
    getUserAlertPreference cxStore "u1" "a1" = some cxReadPref
    ∧ cxReadPref.isRead = true
    ∧ ((∃ q, getUserAlertPreference (ensureUserAlertPreference cxStore "u2" "a9") "u1" "a1"
            = some q ∧ q.isRead = true)
       ∧ (∃ q, getUserAlertPreference (markAlertAsRead cxStore "u2" "a9") "u1" "a1"
            = some q ∧ q.isRead = true)
       ∧ (∃ q, getUserAlertPreference (snoozeAlert 0 cxStore "u2" "a9" 24) "u1" "a1"
            = some q ∧ q.isRead = true)
       ∧ getUserAlertPreference (snoozeAlert 0 cxStore "u1" "a1" 24) "u1" "a1" =
           some { userId := "u1", alertId := "a1", isRead := cxReadPref.isRead,
                  snoozedUntil := some (0 + 24 * 60 * 60 * 1000) }) :=
  ⟨by decide, rfl, c8_theorem cxStore "u1" "a1" "u2" "a9" 0 24 cxReadPref (by decide) rfl⟩

/-- Claim C1, counterexample: cxUser's stored preference for cxAlert has
`isRead = true` and no snooze, yet `deliverToUser` still creates a new
NotificationDelivery record (one per enabled channel), because
`canDeliver` never consults `isRead`.  The claim's "zero new records for
an already-read recipient" is false on the code. -/
theorem c1_counterexample :
    getUserAlertPreference cxStore cxUser.id cxAlert.id = some cxReadPref
    ∧ cxReadPref.isRead = true
    ∧ cxStore.deliveries.length = 0
    ∧ (deliverToUser 0 cxStore cxAlert cxUser).deliveries.length = 1 :=
  ⟨by decide, rfl, rfl, by decide⟩

/-- Claim C1 as amended: `deliverToUser` leaves the store untouched
exactly when the state engine's `canDeliver` is false — the recipient is
snoozed, or the alert is expired or not yet started.  A preference with
`isRead = true` does not by itself make the call a no-op: read-state
suppression applies only to reminder passes (via `shouldCreateReminder`),
and a direct `deliverToUser` for a read-but-unsnoozed recipient of an
in-window alert still records one delivery per enabled channel. -/
theorem c1_theorem (now : Int) (s : Store) (a : Alert) (u : User) :
    deliverToUser now s a u = s ↔
      canDeliver now a (getUserAlertPreference s u.id a.id) = false := by
  unfold deliverToUser
  rcases hc : canDeliver now a (getUserAlertPreference s u.id a.id)
  · simp [hc]
  · simp only [hc, Bool.not_true, Bool.false_eq_true, if_false]
    constructor
    · intro heq
      exfalso
      have hd := congrArg Store.deliveries heq
      rw [ensure_deliveries] at hd
      have hlen := congrArg List.length hd
      rw [List.length_append] at hlen
      have h1 : (deliveryRecords now a u).length = 1 := rfl
      omega
    · intro hfalse
      exact absurd hfalse (by simp)

/-! ### Orchestrator preservation lemmas -/

theorem ensure_users (s : Store) (U A : String) :
    (ensureUserAlertPreference s U A).users = s.users := by
  unfold ensureUserAlertPreference
  cases getUserAlertPreference s U A <;> rfl

theorem ensure_alerts (s : Store) (U A : String) :
    (ensureUserAlertPreference s U A).alerts = s.alerts := by
  unfold ensureUserAlertPreference
  cases getUserAlertPreference s U A <;> rfl

theorem deliverToUser_noop (now : Int) (st : Store) (a : Alert) (w : User)
    (hc : canDeliver now a (getUserAlertPreference st w.id a.id) = false) :
    deliverToUser now st a w = st := by
  show (if (!canDeliver now a (getUserAlertPreference st w.id a.id)) = true then st
        else ensureUserAlertPreference
          { st with deliveries := st.deliveries ++ deliveryRecords now a w }
          w.id a.id) = st
  rw [hc]
  rfl

theorem deliverToUser_eq (now : Int) (st : Store) (a : Alert) (w : User)
    (hc : canDeliver now a (getUserAlertPreference st w.id a.id) = true) :
    deliverToUser now st a w =
      ensureUserAlertPreference
        { st with deliveries := st.deliveries ++ deliveryRecords now a w } w.id a.id := by
  show (if (!canDeliver now a (getUserAlertPreference st w.id a.id)) = true then st
        else ensureUserAlertPreference
          { st with deliveries := st.deliveries ++ deliveryRecords now a w }
          w.id a.id) = _
  rw [hc]
  rfl

theorem deliverToUser_users (now : Int) (st : Store) (a : Alert) (w : User) :
    (deliverToUser now st a w).users = st.users := by
  by_cases hc : canDeliver now a (getUserAlertPreference st w.id a.id) = true
  · rw [deliverToUser_eq now st a w hc, ensure_users]
  · rw [deliverToUser_noop now st a w (by simpa using hc)]

theorem deliverToUser_alerts (now : Int) (st : Store) (a : Alert) (w : User) :
    (deliverToUser now st a w).alerts = st.alerts := by
  by_cases hc : canDeliver now a (getUserAlertPreference st w.id a.id) = true
  · rw [deliverToUser_eq now st a w hc, ensure_alerts]
  · rw [deliverToUser_noop now st a w (by simpa using hc)]

theorem ensure_pref_other (s : Store) (V B U A : String) (h : ¬(V = U ∧ B = A)) :
    getUserAlertPreference (ensureUserAlertPreference s V B) U A
      = getUserAlertPreference s U A := by
  unfold ensureUserAlertPreference
  cases hvb : getUserAlertPreference s V B with
  | none =>
    unfold getUserAlertPreference
    apply find?_append_not
    rw [← Bool.not_eq_true]
    intro hc
    rcases (prefMatches_iff U A _).mp hc with ⟨h1, h2⟩
    exact h ⟨h1, h2⟩
  | some q => rfl

theorem deliverToUser_pref_other (now : Int) (st : Store) (a : Alert) (w : User)
    (U A : String) (h : ¬(w.id = U ∧ a.id = A)) :
    getUserAlertPreference (deliverToUser now st a w) U A
      = getUserAlertPreference st U A := by
  by_cases hc : canDeliver now a (getUserAlertPreference st w.id a.id) = true
  · rw [deliverToUser_eq now st a w hc, ensure_pref_other _ w.id a.id U A h]
    rfl
  · rw [deliverToUser_noop now st a w (by simpa using hc)]

theorem pairRecords_ensure (s : Store) (V B A U : String) :
    pairRecords (ensureUserAlertPreference s V B) A U = pairRecords s A U := by
  unfold pairRecords
  rw [ensure_deliveries]

theorem pairRecords_append (s : Store) (l : List NotificationDelivery) (A U : String) :
    pairRecords { s with deliveries := s.deliveries ++ l } A U
      = pairRecords s A U ++ l.filter (deliveryMatches A U) := by
  unfold pairRecords
  exact List.filter_append _ _

theorem deliveryRecords_eq (now : Int) (a : Alert) (w : User) :
    deliveryRecords now a w =
      [{ alertId := a.id, userId := w.id, channel := "in_app", deliveredAt := now,
         status := DeliveryStatus.delivered }] := rfl

theorem deliveryMatches_records_other (now : Int) (a : Alert) (w : User) (A U : String)
    (h : ¬(a.id = A ∧ w.id = U)) :
    (deliveryRecords now a w).filter (deliveryMatches A U) = [] := by
  have hb : deliveryMatches A U
      { alertId := a.id, userId := w.id, channel := "in_app", deliveredAt := now,
        status := DeliveryStatus.delivered } = false := by
    rw [← Bool.not_eq_true]
    intro hc
    unfold deliveryMatches at hc
    simp only [Bool.and_eq_true, beq_iff_eq] at hc
    exact h hc
  rw [deliveryRecords_eq, List.filter_cons, if_neg (by simp [hb]), List.filter_nil]

theorem deliveryMatches_records_same (now : Int) (a : Alert) (w : User) :
    (deliveryRecords now a w).filter (deliveryMatches a.id w.id)
      = deliveryRecords now a w := by
  rw [deliveryRecords_eq, List.filter_cons, if_pos (by simp [deliveryMatches]),
      List.filter_nil]

theorem deliverToUser_pair_other (now : Int) (st : Store) (a : Alert) (w : User)
    (A U : String) (h : ¬(a.id = A ∧ w.id = U)) :
    pairRecords (deliverToUser now st a w) A U = pairRecords st A U := by
  by_cases hc : canDeliver now a (getUserAlertPreference st w.id a.id) = true
  · rw [deliverToUser_eq now st a w hc, pairRecords_ensure, pairRecords_append,
        deliveryMatches_records_other now a w A U h, List.append_nil]
  · rw [deliverToUser_noop now st a w (by simpa using hc)]

theorem deliverToUser_pair_same (now : Int) (st : Store) (a : Alert) (w : User)
    (hc : canDeliver now a (getUserAlertPreference st w.id a.id) = true) :
    pairRecords (deliverToUser now st a w) a.id w.id
      = pairRecords st a.id w.id ++ deliveryRecords now a w := by
  rw [deliverToUser_eq now st a w hc, pairRecords_ensure, pairRecords_append,
      deliveryMatches_records_same]

theorem lastDelivery_congr (s1 s2 : Store) (A U : String)
    (h : pairRecords s1 A U = pairRecords s2 A U) :
    getLastDeliveryTime s1 A U = getLastDeliveryTime s2 A U := by
  unfold getLastDeliveryTime
  rw [h]

theorem reminderStep_cases (now i : Int) (a : Alert) (st : Store) (w : User) :
    reminderStep now i a st w = st ∨
    (∃ p t, getUserAlertPreference st w.id a.id = some p
        ∧ shouldCreateReminder now a p = true
        ∧ getNextReminderTime now i a (some p) (getLastDeliveryTime st a.id w.id)
            = some t
        ∧ t ≤ now
        ∧ reminderStep now i a st w = deliverToUser now st a w) := by
  unfold reminderStep
  rcases hp : getUserAlertPreference st w.id a.id with _ | p
  · exact Or.inl rfl
  · by_cases hs : shouldCreateReminder now a p
    · rcases hn : getNextReminderTime now i a (some p) (getLastDeliveryTime st a.id w.id)
        with _ | t
      · simp [hs, hn]
      · by_cases ht : t ≤ now
        · exact Or.inr ⟨p, t, rfl, hs, hn, ht, by simp [hs, hn, ht]⟩
        · simp [hs, hn, ht]
    · simp [hs]

theorem reminderStep_other_pair (now i : Int) (a : Alert) (st : Store) (w : User)
    (U A : String) (h : ¬(a.id = A ∧ w.id = U)) :
    getUserAlertPreference (reminderStep now i a st w) U A
      = getUserAlertPreference st U A
    ∧ pairRecords (reminderStep now i a st w) A U = pairRecords st A U := by
  rcases reminderStep_cases now i a st w with heq | ⟨p, t, _, _, _, _, heq⟩ <;> rw [heq]
  · exact ⟨rfl, rfl⟩
  · exact ⟨deliverToUser_pref_other now st a w U A (fun hh => h ⟨hh.2, hh.1⟩),
           deliverToUser_pair_other now st a w A U h⟩

theorem reminderStep_inert (now i : Int) (a : Alert) (st : Store) (w : User)
    (U A : String) (o : Option UserAlertPreference) (ho : reminderInert o)
    (h1 : getUserAlertPreference st U A = o) :
    getUserAlertPreference (reminderStep now i a st w) U A = o
    ∧ pairRecords (reminderStep now i a st w) A U = pairRecords st A U := by
  by_cases hpair : a.id = A ∧ w.id = U
  · rcases reminderStep_cases now i a st w with heq | ⟨p, t, hp, hs, _, _, heq⟩
    · rw [heq]
      exact ⟨h1, rfl⟩
    · exfalso
      rcases hpair with ⟨ha, hw⟩
      rw [hw, ha, h1] at hp
      subst hp
      have hread : p.isRead = true := ho
      rw [shouldCreateReminder_isRead now a p hs] at hread
      exact absurd hread (by simp)
  · rcases reminderStep_other_pair now i a st w U A hpair with ⟨g1, g2⟩
    exact ⟨g1.trans h1, g2⟩

theorem processAlertReminders_inert (now i : Int) (st : Store) (a : Alert)
    (U A : String) (o : Option UserAlertPreference) (ho : reminderInert o)
    (h1 : getUserAlertPreference st U A = o) :
    getUserAlertPreference (processAlertReminders now i st a) U A = o
    ∧ pairRecords (processAlertReminders now i st a) A U = pairRecords st A U := by
  unfold processAlertReminders
  refine foldl_preserve (P := fun st2 => getUserAlertPreference st2 U A = o
      ∧ pairRecords st2 A U = pairRecords st A U) _ _ ?_ st ⟨h1, rfl⟩
  intro st2 w _ hP
  rcases reminderStep_inert now i a st2 w U A o ho hP.1 with ⟨g1, g2⟩
  exact ⟨g1, g2.trans hP.2⟩

theorem processReminders_inert (now i : Int) (s : Store) (U A : String)
    (o : Option UserAlertPreference) (ho : reminderInert o)
    (h1 : getUserAlertPreference s U A = o) :
    getUserAlertPreference (processReminders now i s) U A = o
    ∧ pairRecords (processReminders now i s) A U = pairRecords s A U := by
  unfold processReminders
  refine foldl_preserve (P := fun st2 => getUserAlertPreference st2 U A = o
      ∧ pairRecords st2 A U = pairRecords s A U) _ _ ?_ s ⟨h1, rfl⟩
  intro st2 a _ hP
  rcases processAlertReminders_inert now i st2 a U A o ho hP.1 with ⟨g1, g2⟩
  exact ⟨g1, g2.trans hP.2⟩

/-- Claim C7 (confirmed): once `markAlertAsRead(userId, alertId)` has
completed, no subsequent sequence of `processReminders` passes — at any
times and with any configured intervals — ever creates a
NotificationDelivery record for that (user, alert) pair, provided no
other preference-mutating operation intervenes: the pair's recorded
deliveries after all passes are exactly those already present. -/
theorem c7_theorem (s : Store) (U A : String) (passes : List (Int × Int)) :
    pairRecords
      (passes.foldl (fun st pr => processReminders pr.1 pr.2 st) (markAlertAsRead s U A))
      A U
      = pairRecords s A U := by
  have hmark : getUserAlertPreference (markAlertAsRead s U A) U A =
      some { userId := U, alertId := A, isRead := true, snoozedUntil := none } := by
    unfold getUserAlertPreference markAlertAsRead removePref
    exact replaceRow_lookup_self s.preferences U A _ ⟨rfl, rfl⟩
  have hbase : pairRecords (markAlertAsRead s U A) A U = pairRecords s A U := rfl
  refine (foldl_preserve (P := fun st2 =>
      getUserAlertPreference st2 U A =
        some { userId := U, alertId := A, isRead := true, snoozedUntil := none }
      ∧ pairRecords st2 A U = pairRecords s A U)
    (fun st pr => processReminders pr.1 pr.2 st) passes ?_ _ ⟨hmark, hbase⟩).2
  intro st2 pr _ hP
  rcases processReminders_inert pr.1 pr.2 st2 U A
      (some { userId := U, alertId := A, isRead := true, snoozedUntil := none })
      rfl hP.1 with ⟨g1, g2⟩
  exact ⟨g1, g2.trans hP.2⟩

/-- Claim C9 (confirmed): a candidate recipient whose preference row for
the alert is absent never receives a delivery from a reminder pass —
`processAlertReminders` requires a loaded preference before consulting
`shouldCreateReminder`, so the pass leaves both the pair's delivery
records and the absence of the preference row unchanged. -/
theorem c9_theorem (now i : Int) (s : Store) (U A : String)
    (h : getUserAlertPreference s U A = none) :
    getUserAlertPreference (processReminders now i s) U A = none
    ∧ pairRecords (processReminders now i s) A U = pairRecords s A U :=
  processReminders_inert now i s U A none trivial h

/-- Witness for c9_theorem: cxNoPrefStore holds no preference row for
(u1, a1); the reminder pass at instant 0 changes nothing for the pair. -/
theorem c9_theorem_witness :
    getUserAlertPreference cxNoPrefStore "u1" "a1" = none
    ∧ (getUserAlertPreference (processReminders 0 120 cxNoPrefStore) "u1" "a1" = none
       ∧ pairRecords (processReminders 0 120 cxNoPrefStore) "a1" "u1"
           = pairRecords cxNoPrefStore "a1" "u1") :=
  ⟨by decide, c9_theorem 0 120 cxNoPrefStore "u1" "a1" (by decide)⟩

/-! ### Reminder-spacing machinery -/

theorem foldl_special {α β : Type} {P Q : β → Prop} (f : β → α → β)
    (l1 l2 : List α) (x : α)
    (h1 : ∀ st y, y ∈ l1 → P st → P (f st y))
    (hx : ∀ st, P st → Q (f st x))
    (h2 : ∀ st y, y ∈ l2 → Q st → Q (f st y))
    (st : β) (hst : P st) : Q ((l1 ++ x :: l2).foldl f st) := by
  rw [List.foldl_append, List.foldl_cons]
  exact foldl_preserve f l2 h2 _ (hx _ (foldl_preserve f l1 h1 st hst))

theorem find?_beq_id {α : Type} (f : α → String) (l : List α) (x : α)
    (hmem : x ∈ l) (hnd : (l.map f).Nodup) :
    l.find? (fun y => f y == f x) = some x := by
  induction l with
  | nil => cases hmem
  | cons b t ih =>
    rw [List.map_cons, List.nodup_cons] at hnd
    rcases List.mem_cons.mp hmem with rfl | hx
    · rw [List.find?_cons_of_pos _ (by simp)]
    · have hne : f b ≠ f x := by
        intro hEq
        exact hnd.1 (hEq ▸ List.mem_map_of_mem f hx)
      rw [List.find?_cons_of_neg _ (by simp [hne])]
      exact ih hx hnd.2

theorem reminderStep_early (now i T : Int) (a : Alert) (st : Store) (w : User)
    (U A : String) (p : UserAlertPreference)
    (hpref : getUserAlertPreference st U A = some p)
    (hlast : getLastDeliveryTime st A U = some T)
    (hearly : now < T + i * 60 * 1000) :
    getUserAlertPreference (reminderStep now i a st w) U A = some p
    ∧ pairRecords (reminderStep now i a st w) A U = pairRecords st A U := by
  by_cases hpair : a.id = A ∧ w.id = U
  · rcases reminderStep_cases now i a st w with heq | ⟨p2, t, hp2, _, hn, ht, heq⟩
    · rw [heq]
      exact ⟨hpref, rfl⟩
    · exfalso
      rcases hpair with ⟨ha, hw⟩
      rw [hw, ha] at hp2 hn
      rw [hlast] at hn
      have := getNextReminderTime_some_eq now i a (some p2) (some T) t hn
      simp only [Option.getD_some] at this
      omega
  · rcases reminderStep_other_pair now i a st w U A hpair with ⟨g1, g2⟩
    exact ⟨g1.trans hpref, g2⟩

theorem processReminders_no_early_redeliver (now i T : Int) (s : Store) (U A : String)
    (p : UserAlertPreference)
    (hpref : getUserAlertPreference s U A = some p)
    (hlast : getLastDeliveryTime s A U = some T)
    (hearly : now < T + i * 60 * 1000) :
    pairRecords (processReminders now i s) A U = pairRecords s A U := by
  unfold processReminders
  refine (foldl_preserve (P := fun st2 => getUserAlertPreference st2 U A = some p
      ∧ pairRecords st2 A U = pairRecords s A U) _ _ ?_ s ⟨hpref, rfl⟩).2
  intro st2 a _ hP
  unfold processAlertReminders
  refine foldl_preserve (P := fun st3 => getUserAlertPreference st3 U A = some p
      ∧ pairRecords st3 A U = pairRecords s A U) _ _ ?_ st2 hP
  intro st3 w _ hQ
  have hlast3 : getLastDeliveryTime st3 A U = some T := by
    rw [lastDelivery_congr st3 s A U hQ.2]
    exact hlast
  rcases reminderStep_early now i T a st3 w U A p hQ.1 hlast3 hearly with ⟨g1, g2⟩
  exact ⟨g1, g2.trans hQ.2⟩

theorem processAlertReminders_frame (now i : Int) (st : Store) (al : Alert) :
    (processAlertReminders now i st al).users = st.users
    ∧ (processAlertReminders now i st al).alerts = st.alerts := by
  unfold processAlertReminders
  refine foldl_preserve (P := fun st2 => st2.users = st.users ∧ st2.alerts = st.alerts)
    _ _ ?_ st ⟨rfl, rfl⟩
  intro st2 w _ hP
  rcases reminderStep_cases now i al st2 w with heq | ⟨p2, t, _, _, _, _, heq⟩ <;> rw [heq]
  · exact hP
  · exact ⟨(deliverToUser_users now st2 al w).trans hP.1,
           (deliverToUser_alerts now st2 al w).trans hP.2⟩

theorem processAlertReminders_other_alert (now i : Int) (st : Store) (al : Alert)
    (U A : String) (hne : al.id ≠ A) :
    getUserAlertPreference (processAlertReminders now i st al) U A
      = getUserAlertPreference st U A
    ∧ pairRecords (processAlertReminders now i st al) A U = pairRecords st A U := by
  unfold processAlertReminders
  refine foldl_preserve (P := fun st2 =>
      getUserAlertPreference st2 U A = getUserAlertPreference st U A
      ∧ pairRecords st2 A U = pairRecords st A U) _ _ ?_ st ⟨rfl, rfl⟩
  intro st2 w _ hP
  rcases reminderStep_other_pair now i al st2 w U A (fun hh => hne hh.1) with ⟨g1, g2⟩
  exact ⟨g1.trans hP.1, g2.trans hP.2⟩

theorem processAlertReminders_deliver (now i T : Int) (st : Store) (a : Alert)
    (u : User) (p : UserAlertPreference)
    (hUNodup : (st.users.map User.id).Nodup)
    (hUmem : u ∈ st.users)
    (hAfind : st.alerts.find? (fun al => al.id == a.id) = some a)
    (hRem : a.reminderEnabled = true)
    (hVis : sqlVisibilityMatch a u = true)
    (hStartF : beforeStart now a = false)
    (hExpF : pastExpiry now a = false)
    (hNextF : pastExpiry (T + i * 60 * 1000) a = false)
    (hPref : getUserAlertPreference st u.id a.id = some p)
    (hRead : p.isRead = false)
    (hSnooze : p.snoozedUntil = none)
    (hLast : getLastDeliveryTime st a.id u.id = some T)
    (hDue : T + i * 60 * 1000 ≤ now) :
    pairRecords (processAlertReminders now i st a) a.id u.id
      = pairRecords st a.id u.id ++ deliveryRecords now a u := by
  have hsz : snoozeActive now (some p) = false := by
    apply snoozeActive_false
    intro pr hpr sn hsn
    injection hpr with hpr
    rw [← hpr, hSnooze] at hsn
    cases hsn
  have hsze : snoozeElapsedOrNone now p = true := by
    unfold snoozeElapsedOrNone
    rw [hSnooze]
  have hcand : u ∈ getUsersNeedingReminders now st a.id := by
    unfold getUsersNeedingReminders
    apply List.mem_filter.mpr
    refine ⟨hUmem, ?_⟩
    simp only [hAfind, hPref, hVis, hRead, hSnooze]
    rfl
  rcases List.append_of_mem hcand with ⟨m1, m2, hsplit⟩
  have hndc : ((getUsersNeedingReminders now st a.id).map User.id).Nodup :=
    (List.Sublist.map User.id (List.filter_sublist _)).nodup hUNodup
  rw [hsplit] at hndc
  have hnotin : u.id ∉ m1.map User.id ++ m2.map User.id := by
    have h2 := List.nodup_middle.mp (by simpa using hndc)
    exact (List.nodup_cons.mp h2).1
  have hne1 : ∀ w, w ∈ m1 → w.id ≠ u.id := by
    intro w hw hEq
    exact hnotin (List.mem_append.mpr (Or.inl (hEq ▸ List.mem_map_of_mem User.id hw)))
  have hne2 : ∀ w, w ∈ m2 → w.id ≠ u.id := by
    intro w hw hEq
    exact hnotin (List.mem_append.mpr (Or.inr (hEq ▸ List.mem_map_of_mem User.id hw)))
  unfold processAlertReminders
  rw [hsplit]
  refine foldl_special (P := fun st2 => getUserAlertPreference st2 u.id a.id = some p
      ∧ pairRecords st2 a.id u.id = pairRecords st a.id u.id)
    (Q := fun st2 => pairRecords st2 a.id u.id
      = pairRecords st a.id u.id ++ deliveryRecords now a u)
    _ m1 m2 u ?_ ?_ ?_ st ⟨hPref, rfl⟩
  · intro st2 w hw hP
    rcases reminderStep_other_pair now i a st2 w u.id a.id
      (fun hh => hne1 w hw hh.2) with ⟨g1, g2⟩
    exact ⟨g1.trans hP.1, g2.trans hP.2⟩
  · intro st2 hP
    have hlast2 : getLastDeliveryTime st2 a.id u.id = some T := by
      rw [lastDelivery_congr st2 st a.id u.id hP.2]
      exact hLast
    have hshould : shouldCreateReminder now a p = true :=
      shouldCreateReminder_true now a p hExpF hsz hRem hRead hsze
    have hnext : getNextReminderTime now i a (some p) (some T)
        = some (T + i * 60 * 1000) := by
      have hh := getNextReminderTime_eq now i a (some p) (some T) hExpF hsz hRem
        (by simpa using hNextF)
      simpa using hh
    have hcd : canDeliver now a (getUserAlertPreference st2 u.id a.id) = true := by
      rw [hP.1]
      exact canDeliver_active_true now a (some p) hExpF hsz hStartF
    unfold reminderStep
    simp only [hP.1, hlast2, hshould, hnext, if_true, if_pos hDue]
    rw [deliverToUser_pair_same now st2 a u hcd, hP.2]
  · intro st2 w hw hQ
    rcases reminderStep_other_pair now i a st2 w u.id a.id
      (fun hh => hne2 w hw hh.2) with ⟨g1, g2⟩
    exact g2.trans hQ

theorem processReminders_redeliver (now i T : Int) (s : Store) (a : Alert) (u : User)
    (p : UserAlertPreference)
    (hANodup : (s.alerts.map Alert.id).Nodup)
    (hUNodup : (s.users.map User.id).Nodup)
    (hAmem : a ∈ s.alerts) (hUmem : u ∈ s.users)
    (hRem : a.reminderEnabled = true) (hArch : a.archivedAt = none)
    (hVis : sqlVisibilityMatch a u = true)
    (hStart : ∀ s0, a.startTime = some s0 → s0 ≤ now)
    (hExpNow : ∀ e, a.expiryTime = some e → now < e)
    (hPref : getUserAlertPreference s u.id a.id = some p)
    (hRead : p.isRead = false) (hSnooze : p.snoozedUntil = none)
    (hLast : getLastDeliveryTime s a.id u.id = some T)
    (hDue : T + i * 60 * 1000 ≤ now) :
    pairRecords (processReminders now i s) a.id u.id
      = pairRecords s a.id u.id ++ deliveryRecords now a u := by
  have hStartF : beforeStart now a = false := beforeStart_false now a hStart
  have hExpF : pastExpiry now a = false :=
    pastExpiry_false now a (fun e he => le_of_lt (hExpNow e he))
  have hNextF : pastExpiry (T + i * 60 * 1000) a = false :=
    pastExpiry_false _ a (fun e he => by have := hExpNow e he; omega)
  have haActive : a ∈ getActiveAlertsWithReminders now s := by
    unfold getActiveAlertsWithReminders
    apply List.mem_filter.mpr
    refine ⟨hAmem, ?_⟩
    simp only [hRem, hArch, Option.isNone_none, Bool.true_and, Bool.and_eq_true]
    constructor
    · rcases hs0 : a.startTime with _ | s0
      · rfl
      · exact decide_eq_true (hStart s0 hs0)
    · rcases he : a.expiryTime with _ | e
      · rfl
      · exact decide_eq_true (hExpNow e he)
  rcases List.append_of_mem haActive with ⟨l1, l2, hsplit⟩
  have hnda : ((getActiveAlertsWithReminders now s).map Alert.id).Nodup :=
    (List.Sublist.map Alert.id (List.filter_sublist _)).nodup hANodup
  rw [hsplit] at hnda
  have hnotin : a.id ∉ l1.map Alert.id ++ l2.map Alert.id := by
    have h2 := List.nodup_middle.mp (by simpa using hnda)
    exact (List.nodup_cons.mp h2).1
  have hne1 : ∀ y, y ∈ l1 → y.id ≠ a.id := by
    intro y hy hEq
    exact hnotin (List.mem_append.mpr (Or.inl (hEq ▸ List.mem_map_of_mem Alert.id hy)))
  have hne2 : ∀ y, y ∈ l2 → y.id ≠ a.id := by
    intro y hy hEq
    exact hnotin (List.mem_append.mpr (Or.inr (hEq ▸ List.mem_map_of_mem Alert.id hy)))
  unfold processReminders
  rw [hsplit]
  refine foldl_special (P := fun st2 => st2.users = s.users ∧ st2.alerts = s.alerts
      ∧ getUserAlertPreference st2 u.id a.id = some p
      ∧ pairRecords st2 a.id u.id = pairRecords s a.id u.id)
    (Q := fun st2 => pairRecords st2 a.id u.id
      = pairRecords s a.id u.id ++ deliveryRecords now a u)
    _ l1 l2 a ?_ ?_ ?_ s ⟨rfl, rfl, hPref, rfl⟩
  · intro st2 y hy hP
    have hf := processAlertReminders_frame now i st2 y
    have ho := processAlertReminders_other_alert now i st2 y u.id a.id (hne1 y hy)
    exact ⟨hf.1.trans hP.1, hf.2.trans hP.2.1, ho.1.trans hP.2.2.1, ho.2.trans hP.2.2.2⟩
  · intro st2 hP
    have hAfind : st2.alerts.find? (fun al => al.id == a.id) = some a := by
      rw [hP.2.1]
      exact find?_beq_id Alert.id s.alerts a hAmem hANodup
    have hu2 : u ∈ st2.users := by
      rw [hP.1]
      exact hUmem
    have hnd2 : (st2.users.map User.id).Nodup := by
      rw [hP.1]
      exact hUNodup
    have hlast2 : getLastDeliveryTime st2 a.id u.id = some T := by
      rw [lastDelivery_congr st2 s a.id u.id hP.2.2.2]
      exact hLast
    rw [processAlertReminders_deliver now i T st2 a u p hnd2 hu2 hAfind hRem hVis
        hStartF hExpF hNextF hP.2.2.1 hRead hSnooze hlast2 hDue, hP.2.2.2]
  · intro st2 y hy hQ
    exact (processAlertReminders_other_alert now i st2 y u.id a.id (hne2 y hy)).2.trans hQ

/-- Claim C6 (confirmed): with reminderInterval = 120 minutes, for a
recipient of a reminder-enabled, unarchived, unexpired (through
T + 121 minutes), started-by-T, unread, unsnoozed alert whose most
recent delivery is at time T, a `processReminders` pass at T + 60
minutes creates no new delivery record for the pair, and a pass at
T + 121 minutes appends exactly the per-enabled-channel batch — one new
record per enabled channel.  Row identities keyed by id are assumed
unique (the tables' primary keys). -/
theorem c6_theorem (s : Store) (a : Alert) (u : User) (p : UserAlertPreference) (T : Int)
    (hANodup : (s.alerts.map Alert.id).Nodup)
    (hUNodup : (s.users.map User.id).Nodup)
    (hAmem : a ∈ s.alerts) (hUmem : u ∈ s.users)
    (hRem : a.reminderEnabled = true) (hArch : a.archivedAt = none)
    (hVis : sqlVisibilityMatch a u = true)
    (hStart : ∀ s0, a.startTime = some s0 → s0 ≤ T)
    (hExp : ∀ e, a.expiryTime = some e → T + 121 * 60 * 1000 < e)
    (hPref : getUserAlertPreference s u.id a.id = some p)
    (hRead : p.isRead = false) (hSnooze : p.snoozedUntil = none)
    (hLast : getLastDeliveryTime s a.id u.id = some T) :
    pairDeliveries (processReminders (T + 60 * 60 * 1000) 120 s) a.id u.id
      = pairDeliveries s a.id u.id
    ∧ pairRecords (processReminders (T + 121 * 60 * 1000) 120 s) a.id u.id
        = pairRecords s a.id u.id ++ deliveryRecords (T + 121 * 60 * 1000) a u
    ∧ pairDeliveries (processReminders (T + 121 * 60 * 1000) 120 s) a.id u.id
        = pairDeliveries s a.id u.id + getEnabledChannels.length := by
  have h2 := processReminders_redeliver (T + 121 * 60 * 1000) 120 T s a u p hANodup
    hUNodup hAmem hUmem hRem hArch hVis
    (fun s0 hs0 => by have := hStart s0 hs0; omega)
    (fun e he => by have := hExp e he; omega)
    hPref hRead hSnooze hLast (by omega)
  refine ⟨?_, h2, ?_⟩
  · unfold pairDeliveries
    rw [processReminders_no_early_redeliver (T + 60 * 60 * 1000) 120 T s u.id a.id p
      hPref hLast (by omega)]
  · unfold pairDeliveries
    rw [h2, List.length_append]
    unfold deliveryRecords
    rw [List.length_map]

/-- Witness for c6_theorem on cxReminderStore: cxUser last received
cxAlert at T = 0, unread and unsnoozed; the pass an hour later adds
nothing and the pass at 121 minutes adds the enabled-channel batch. -/
theorem c6_theorem_witness :
    pairDeliveries (processReminders (0 + 60 * 60 * 1000) 120 cxReminderStore)
        cxAlert.id cxUser.id = pairDeliveries cxReminderStore cxAlert.id cxUser.id
    ∧ pairRecords (processReminders (0 + 121 * 60 * 1000) 120 cxReminderStore)
        cxAlert.id cxUser.id = pairRecords cxReminderStore cxAlert.id cxUser.id
          ++ deliveryRecords (0 + 121 * 60 * 1000) cxAlert cxUser
    ∧ pairDeliveries (processReminders (0 + 121 * 60 * 1000) 120 cxReminderStore)
        cxAlert.id cxUser.id
        = pairDeliveries cxReminderStore cxAlert.id cxUser.id
          + getEnabledChannels.length :=
  c6_theorem cxReminderStore cxAlert cxUser cxUnreadPref 0 (by decide) (by decide)
    (by decide) (by decide) rfl rfl (by decide)
    (fun s0 h => nomatch h) (fun e h => nomatch h) (by decide) rfl rfl (by decide)

end AlertPlatform
